import Mathlib

/-!
Verification of the WhatsApp commerce-bot core (src/main.py) against its
specification. The catalog, cart service, search service, FAQ service and
the plan/act pipeline nodes are shallowly embedded as executable Lean
functions; the process-wide cart store is threaded explicitly (each
operation reads and writes only the calling user's entry, so the state of
one operation is that user's list of line items). External effects (the
language-model calls, logging) are modelled at their data boundary.
-/

set_option autoImplicit false

namespace WAagent

/-- Does the second character list start with the first one? -/
def leadsWith : List Char → List Char → Bool
  | [], _ => true
  | _ :: _, [] => false
  | a :: as, b :: bs => a == b && leadsWith as bs

/-- Does `sub` occur contiguously inside the second list? -/
def hasSubList (sub : List Char) : List Char → Bool
  | [] => sub.isEmpty
  | c :: rest => leadsWith sub (c :: rest) || hasSubList sub rest

/-- Python's substring test `sub in s` (for `str`): true iff `sub` occurs
contiguously inside `s`; the empty string is contained in every string. -/
def pyIn (sub s : String) : Bool :=
  hasSubList sub.toList s.toList

/-- Python's `str.lower()` (ASCII case folding, which covers the catalog
and every keyword the program compares against). -/
def strLower (s : String) : String :=
  String.mk (s.toList.map Char.toLower)

/-- A catalog product record (src/main.py CATALOG entries). -/
structure Product where
  id : String
  name : String
  price : Int
  currency : String
  gender : String
  occasion : String
  notes : List String
  strength : String
  deriving Repr, DecidableEq

/-- Product p1 of the fixed catalog. -/
def oudRoyale : Product :=
  { id := "p1", name := "Oud Royale", price := 4800, currency := "PKR",
    gender := "Unisex", occasion := "Evening, formal",
    notes := ["Oud", "Amber", "Spice"], strength := "EDP" }

/-- Product p2 of the fixed catalog. -/
def roseNoir : Product :=
  { id := "p2", name := "Rose Noir", price := 3900, currency := "PKR",
    gender := "Female", occasion := "Date, evening",
    notes := ["Rose", "Patchouli", "Musk"], strength := "EDT" }

/-- Product p3 of the fixed catalog. -/
def citrusYuzu : Product :=
  { id := "p3", name := "Citrus Yuzu", price := 3200, currency := "PKR",
    gender := "Male", occasion := "Daytime, office, summer",
    notes := ["Yuzu", "Citrus", "Green"], strength := "EDT" }

/-- The fixed, read-only, in-memory catalog (src/main.py lines 34-65). -/
def CATALOG : List Product := [oudRoyale, roseNoir, citrusYuzu]

/-- Configured default currency (env default, src/main.py line 21). -/
def DEFAULT_CURRENCY : String := "PKR"

/-- Configured delivery window (env default, src/main.py line 22). -/
def DELIVERY_TIME_WINDOW : String := "2-4 business days"

/-- Configured return policy (env default, src/main.py line 23). -/
def RETURN_POLICY : String := "Returns accepted within 7 days if unopened."

/-- Search criteria dictionary: a key present in the Python dict is `some`,
an absent key is `none` (src/main.py search_catalog docstring). -/
structure Criteria where
  max_price : Option Int := none
  gender : Option String := none
  occasion : Option String := none
  notes : Option (List String) := none
  deriving Repr, DecidableEq

/-- search_catalog (src/main.py lines 73-89): keeps the catalog items that
survive every `continue` guard, in catalog order. Note that `max_price`
is only checked for presence (`"max_price" in criteria`), with no
truthiness test, unlike gender/occasion/notes. -/
def search_catalog (criteria : Criteria) : List Product :=
  CATALOG.filter fun item =>
    (match criteria.max_price with
      | some m => decide (item.price ≤ m)
      | none => true) &&
    (match criteria.gender with
      | some g => g == "" || item.gender == g
      | none => true) &&
    (match criteria.occasion with
      | some o => o == "" || pyIn o item.occasion
      | none => true) &&
    (match criteria.notes with
      | some ns => ns.isEmpty ||
          ns.any (fun n => (item.notes.map strLower).contains (strLower n))
      | none => true)

/-- One cart line item (the dicts stored in CARTS, src/main.py line 138). -/
structure CartItem where
  id : String
  name : String
  price : Int
  qty : Int
  deriving Repr, DecidableEq

/-- A user's cart: the CARTS entry for that user (missing entry = []). -/
abbrev Cart := List CartItem

/-- Sum of price*qty over the cart lines (src/main.py lines 237 and 255). -/
def cartTotal (cart : Cart) : Int :=
  (cart.map fun item => item.price * item.qty).sum

/-- Product resolution shared by add_to_cart (src/main.py lines 100-109)
and update_cart (lines 169-178): exact case-insensitive id match, then
exact case-insensitive name match, then bidirectional case-insensitive
substring match, first catalog product wins. -/
def find_product (product_id : String) : Option Product :=
  let prod := CATALOG.find? fun p => strLower p.id == strLower product_id
  let prod := if prod.isNone then
      CATALOG.find? (fun p => strLower p.name == strLower product_id)
    else prod
  let prod := if prod.isNone then
      CATALOG.find? (fun p =>
        pyIn (strLower p.name) (strLower product_id) ||
        pyIn (strLower product_id) (strLower p.name))
    else prod
  prod

/-- Customer contact dict for checkout; a key absent from the Python dict
is `none` (`customer.get(k)` then yields Python None, which is falsy). -/
structure Customer where
  name : Option String := none
  address : Option String := none
  phone : Option String := none
  deriving Repr, DecidableEq

/-- Python truthiness of `d.get(k)` for an optional string field: false
when the key is absent or the string is empty. -/
def truthyOpt : Option String → Bool
  | none => false
  | some s => s != ""

/-- The added_product / updated_product payload (src/main.py lines
149-155 and 215-221). -/
structure ProductView where
  id : String
  name : String
  price : Int
  formatted_price : String
  occasion : String
  deriving Repr, DecidableEq

/-- Builds the added_product / updated_product payload from a product. -/
def productView (p : Product) : ProductView :=
  { id := p.id, name := p.name, price := p.price,
    formatted_price := toString p.price ++ " " ++ p.currency,
    occasion := p.occasion }

/-- Catalog entry enriched by node_act with formatted price and notes
(src/main.py lines 330-336). -/
structure FormattedProduct extends Product where
  formatted_price : String
  formatted_notes : String
  deriving Repr, DecidableEq

/-- The formatted catalog node_act builds on entry (lines 330-336). -/
def formatted_catalog : List FormattedProduct :=
  CATALOG.map fun p =>
    { toProduct := p,
      formatted_price := toString p.price ++ " " ++ p.currency,
      formatted_notes := String.intercalate ", " p.notes }

/-- The exact_pricing dict name -> "price currency", in catalog order. -/
def exact_pricing_table : List (String × String) :=
  CATALOG.map fun p => (p.name, toString p.price ++ " " ++ p.currency)

/-- The exact_occasions dict name -> occasion, in catalog order. -/
def exact_occasions_table : List (String × String) :=
  CATALOG.map fun p => (p.name, p.occasion)

/-- The "catalog" key of a tool-result dict holds the raw CATALOG when set
by add_to_cart itself (line 116) and the formatted catalog when set or
overwritten by node_act (lines 367, 392, 408, 415). -/
inductive CatalogField where
  | raw (c : List Product)
  | formatted (c : List FormattedProduct)
  deriving Repr, DecidableEq

/-- The order dict built by checkout (src/main.py lines 238-246). -/
structure Order where
  order_id : String
  items : List CartItem
  total : Int
  currency : String
  customer : Customer
  payment : String
  delivery : String
  deriving Repr, DecidableEq

/-- A tool-result dictionary: each possible key of the Python result dicts
is an optional field (`none` = key absent). `rtype` stands for the
Python key "type". -/
structure ToolResult where
  ok : Option Bool := none
  error : Option String := none
  cart : Option Cart := none
  total : Option Int := none
  catalog : Option CatalogField := none
  full_catalog : Option (List FormattedProduct) := none
  exact_pricing : Option (List (String × String)) := none
  exact_occasions : Option (List (String × String)) := none
  added_product : Option ProductView := none
  updated_product : Option ProductView := none
  action : Option String := none
  order : Option Order := none
  rtype : Option String := none
  results : Option (List Product) := none
  answer : Option String := none
  deriving Repr, DecidableEq

/-- Mutation of the first cart line satisfying `pred` (Python mutates the
item found by `next(...)` in place, leaving its position). -/
def updateFirst (pred : CartItem → Bool) (f : CartItem → CartItem) :
    Cart → Cart
  | [] => []
  | item :: rest =>
      if pred item then f item :: rest else item :: updateFirst pred f rest

/-- add_to_cart (src/main.py lines 96-156): resolves the product; merges
into an existing line (overwrite on set_quantity, else increment) or
appends a new line; returns the result dict and the user's new cart. -/
def add_to_cart (cart : Cart) (product_id : String) (qty : Int)
    (set_quantity : Bool) : ToolResult × Cart :=
  match find_product product_id with
  | none =>
      ({ ok := some false,
         error := some ("Product not found: " ++ product_id ++
           ". Available products: " ++
           String.intercalate ", " (CATALOG.map Product.name)),
         catalog := some (.raw CATALOG),
         exact_pricing := some exact_pricing_table }, cart)
  | some prod =>
      if cart.any (fun item => item.id == prod.id) then
        let newCart := updateFirst (fun item => item.id == prod.id)
          (fun item =>
            { item with qty := if set_quantity then qty else item.qty + qty })
          cart
        ({ ok := some true, cart := some newCart,
           added_product := some (productView prod) }, newCart)
      else
        let newCart := cart ++
          [{ id := prod.id, name := prod.name, price := prod.price, qty := qty }]
        ({ ok := some true, cart := some newCart,
           added_product := some (productView prod) }, newCart)

/-- update_cart (src/main.py lines 160-223): requires a non-empty cart and
an existing line for the resolved product; qty ≤ 0 removes the line,
otherwise sets its quantity. -/
def update_cart (cart : Cart) (product_id : String) (qty : Int) :
    ToolResult × Cart :=
  if cart.isEmpty then
    ({ ok := some false, error := some "Cart is empty." }, cart)
  else
    match find_product product_id with
    | none =>
        ({ ok := some false,
           error := some ("Product not found: " ++ product_id ++ ". Cannot update."),
           cart := some cart }, cart)
    | some prod =>
        if cart.any (fun item => item.id == prod.id) then
          if qty ≤ 0 then
            let newCart := cart.filter fun item => item.id != prod.id
            ({ ok := some true, cart := some newCart,
               updated_product := some (productView prod),
               action := some "removed" }, newCart)
          else
            let newCart := updateFirst (fun item => item.id == prod.id)
              (fun item => { item with qty := qty }) cart
            ({ ok := some true, cart := some newCart,
               updated_product := some (productView prod),
               action := some "updated" }, newCart)
        else
          ({ ok := some false,
             error := some ("Product " ++ prod.name ++ " not in cart. Cannot update."),
             cart := some cart }, cart)

/-- checkout (src/main.py lines 224-249): fails on an empty cart or a falsy
customer name/address/phone, else returns the order and resets the cart. -/
def checkout (user_id : String) (cart : Cart) (customer : Customer) :
    ToolResult × Cart :=
  if cart.isEmpty then
    ({ ok := some false, error := some "Cart is empty." }, cart)
  else if !(truthyOpt customer.name && truthyOpt customer.address &&
      truthyOpt customer.phone) then
    ({ ok := some false,
       error := some "Missing customer information. Please provide name, address, and phone number.",
       cart := some cart }, cart)
  else
    let total := cartTotal cart
    let order : Order :=
      { order_id := "ORD-" ++ user_id ++ "-" ++ toString cart.length,
        items := cart, total := total, currency := DEFAULT_CURRENCY,
        customer := customer, payment := "Cash on Delivery",
        delivery := DELIVERY_TIME_WINDOW }
    ({ ok := some true, order := some order }, [])

/-- view_cart (src/main.py lines 253-256): pure read of the cart and total. -/
def view_cart (cart : Cart) : ToolResult :=
  { ok := some true, cart := some cart, total := some (cartTotal cart) }

/-- faq_answer (src/main.py lines 260-266): keyword classifier. -/
def faq_answer (question : String) : String :=
  let q := strLower question
  if pyIn "deliver" q || pyIn "shipping" q then
    "Delivery time is " ++ DELIVERY_TIME_WINDOW ++ "."
  else if pyIn "return" q || pyIn "refund" q then
    RETURN_POLICY
  else
    "You can ask about delivery, returns, prices, recommendations, or place an order."

/-- All-digit character list to its numeric value, else none. -/
def parseNatChars (cs : List Char) : Option Nat :=
  if cs.isEmpty then none
  else if cs.all Char.isDigit then
    some (cs.foldl (fun acc c => acc * 10 + (c.toNat - 48)) 0)
  else none

/-- Python `int(s)` on a string: optional surrounding spaces, optional
sign, then decimal digits; anything else raises ValueError (`none`). -/
def pyIntOfStr (s : String) : Option Int :=
  let cs := s.toList.dropWhile (fun c => c == ' ')
  let cs := (cs.reverse.dropWhile (fun c => c == ' ')).reverse
  match cs with
  | '-' :: rest => (parseNatChars rest).map (fun n => -(n : Int))
  | '+' :: rest => (parseNatChars rest).map (fun n => (n : Int))
  | _ => (parseNatChars cs).map (fun n => (n : Int))

/-- A dynamically-typed value of the plan dict, as far as the pipeline
inspects one: the `qty` field may arrive from the model as an integer, a
string, or JSON null, and node_act applies Python `int()` to it. -/
inductive PyVal where
  | int (n : Int)
  | str (s : String)
  | null
  deriving Repr, DecidableEq

/-- Python `int(v)` on such a value: succeeds on integers and on strings
that spell an integer (surrounding whitespace allowed); raises ValueError
on other strings and TypeError on None. `Except.error` models the raised
exception. -/
def pyInt : PyVal → Except String Int
  | .int n => .ok n
  | .str s =>
      match pyIntOfStr s with
      | some n => .ok n
      | none => .error "ValueError: invalid literal for int()"
  | .null => .error "TypeError: int() argument cannot be None"

/-- Python string-method receiver check: lower() on a non-string raises
AttributeError, modelled as `Except.error`. -/
def pyStr : PyVal → Except String String
  | .str s => .ok s
  | .int _ => .error "AttributeError: int object has no attribute lower"
  | .null => .error "AttributeError: NoneType object has no attribute lower"

/-- The criteria value of the plan dict: either the expected JSON object,
or a non-iterable JSON scalar (a number or null) on which the membership
test at src/main.py line 79 raises TypeError. A JSON string criteria is
iterable and does not raise at that line; it is outside the claims and
is not modelled. -/
inductive CriteriaVal where
  | dict (c : Criteria)
  | num (n : Int)
  | null
  deriving Repr, DecidableEq

/-- The customer value of the plan dict: the expected JSON object, or any
scalar, which has no .get method (src/main.py line 230 then raises
AttributeError). -/
inductive CustomerVal where
  | dict (c : Customer)
  | scalar (v : PyVal)
  deriving Repr, DecidableEq

/-- search_catalog as called on the untrusted criteria value from the plan
(src/main.py line 350): the membership test at line 79 raises TypeError
when the criteria value is not iterable. -/
def search_catalog_dyn : CriteriaVal → Except String (List Product)
  | .dict c => .ok (search_catalog c)
  | .num _ => .error "TypeError: argument of type int is not iterable"
  | .null => .error "TypeError: argument of type NoneType is not iterable"

/-- add_to_cart as called on the untrusted product_id value from the plan
(src/main.py lines 363, 383): product_id.lower() at line 101 is evaluated
for the first catalog product before anything else (the catalog is never
empty), so a non-string reference raises AttributeError immediately. -/
def add_to_cart_dyn (cart : Cart) (product_id : PyVal) (qty : Int)
    (set_quantity : Bool) : Except String (ToolResult × Cart) :=
  match pyStr product_id with
  | .error e => .error e
  | .ok s => .ok (add_to_cart cart s qty set_quantity)

/-- update_cart as called on the untrusted product_id value from the plan
(src/main.py line 385): the empty-cart check at lines 165-167 runs before
product resolution, so an empty cart returns the Cart-is-empty failure
even for a non-string reference; otherwise product_id.lower() at line 170
raises AttributeError on a non-string. -/
def update_cart_dyn (cart : Cart) (product_id : PyVal) (qty : Int) :
    Except String (ToolResult × Cart) :=
  if cart.isEmpty then
    .ok ({ ok := some false, error := some "Cart is empty." }, cart)
  else
    match pyStr product_id with
    | .error e => .error e
    | .ok s => .ok (update_cart cart s qty)

/-- checkout as called on the untrusted customer value from the plan
(src/main.py lines 398-399): the empty-cart check at lines 225-227 runs
before customer.get, so an empty cart returns the Cart-is-empty failure
even for a non-dict customer; otherwise customer.get at line 230 raises
AttributeError on a non-dict. -/
def checkout_dyn (user_id : String) (cart : Cart) (customer : CustomerVal) :
    Except String (ToolResult × Cart) :=
  if cart.isEmpty then
    .ok ({ ok := some false, error := some "Cart is empty." }, cart)
  else
    match customer with
    | .dict c => .ok (checkout user_id cart c)
    | .scalar _ => .error "AttributeError: object has no attribute get"

/-- faq_answer as called on the untrusted question value from the plan
(src/main.py lines 403-404): question.lower() at line 261 raises
AttributeError on a non-string question. -/
def faq_answer_dyn (question : PyVal) : Except String String :=
  match pyStr question with
  | .error e => .error e
  | .ok q => .ok (faq_answer q)

/-- The plan dict produced by the Planner (untrusted model output): every
recognized key is optional (`none` means the key is absent) and carries
no type guarantee, so the fields node_act inspects are dynamically
typed: qty goes through int(), product_id and question through string
methods, criteria through a membership test, customer through .get. -/
structure Plan where
  intent : Option String := none
  criteria : Option CriteriaVal := none
  product_id : Option PyVal := none
  qty : Option PyVal := none
  question : Option PyVal := none
  customer : Option CustomerVal := none
  deriving Repr, DecidableEq

/-- AgentState (src/main.py lines 270-276): TypedDict with total=False, so
every field is optional. -/
structure AgentState where
  user_id : Option String := none
  user_text : Option String := none
  intent : Option String := none
  plan : Option Plan := none
  tool_result : Option ToolResult := none
  reply : Option String := none
  deriving Repr, DecidableEq

/-- Outcome of `json.loads(content)` on the model response in llm_plan
(src/main.py lines 306-311). The external model response is modelled at
this boundary: `failure` covers content on which json.loads raises
(empty content included, since json.loads of an empty string raises);
`scalar v` covers content that is valid JSON but not a JSON object
(for example the content "42"); `dict p` covers a JSON object. -/
inductive PlanParse where
  | dict (p : Plan)
  | scalar (v : PyVal)
  | failure
  deriving Repr, DecidableEq

/-- The `data` value llm_plan returns: json.loads output on parse success
(whatever JSON value it was), or the substituted default plan
whose intent is smalltalk when json.loads raised (lines 307-311). -/
inductive PlanData where
  | dict (p : Plan)
  | scalar (v : PyVal)
  deriving Repr, DecidableEq

/-- The parse-and-default step of llm_plan (src/main.py lines 306-311):
only a raised json.loads is replaced by the default smalltalk plan; a
successfully parsed non-object value is returned unchanged. -/
def llm_plan_data : PlanParse → PlanData
  | .dict p => .dict p
  | .scalar v => .scalar v
  | .failure => .dict { intent := some "smalltalk" }

/-- node_plan (src/main.py lines 315-319), with the model response given
by its parse outcome: stores the plan and reads plan.get with default
"smalltalk". When llm_plan returned a non-dict JSON value, the call
`plan.get` raises AttributeError, modelled as `Except.error`. -/
def node_plan (state : AgentState) (parsed : PlanParse) :
    Except String AgentState :=
  match llm_plan_data parsed with
  | .dict p =>
      .ok { state with plan := some p, intent := some (p.intent.getD "smalltalk") }
  | .scalar _ => .error "AttributeError: object has no attribute get"

/-- The intent-based dispatch of node_act (src/main.py lines 348-420),
after the removal-override check did not fire. Returns the updated state
and the user's new cart; `Except.error` models an exception escaping
node_act: the int() calls on the plan qty field and the type errors the
dynamically typed plan fields cause inside the dispatched operations. -/
def node_act_dispatch (cart : Cart) (state : AgentState) (intent : String)
    (plan : Plan) (user_id user_text : String) : Except String (AgentState × Cart) :=
  if intent = "recommend" then
    let criteria := plan.criteria.getD (.dict {})
    match search_catalog_dyn criteria with
    | .error e => .error e
    | .ok result =>
        let tr : ToolResult :=
          { rtype := some "search_results", results := some result,
            full_catalog := some formatted_catalog,
            exact_pricing := some exact_pricing_table,
            exact_occasions := some exact_occasions_table }
        .ok ({ state with tool_result := some tr }, cart)
  else if intent = "add_to_cart" then
    let pid := plan.product_id.getD (.str "")
    match pyInt (plan.qty.getD (.int 1)) with
    | .error e => .error e
    | .ok qty =>
        match add_to_cart_dyn cart pid qty false with
        | .error e => .error e
        | .ok (result, cart2) =>
            let result := if !(result.ok.getD false) then
                { result with
                  catalog := some (.formatted formatted_catalog),
                  exact_pricing := some exact_pricing_table,
                  exact_occasions := some exact_occasions_table }
              else result
            .ok ({ state with tool_result := some result }, cart2)
  else if intent = "update_cart" then
    let pid := plan.product_id.getD (.str "")
    match pyInt (plan.qty.getD (.int 1)) with
    | .error e => .error e
    | .ok qty0 =>
        let qty := if pyIn "remove" user_text || pyIn "delete" user_text ||
            pyIn "take out" user_text then 0 else qty0
        if pyIn "set" user_text || pyIn "only want" user_text ||
            pyIn "just want" user_text then
          match add_to_cart_dyn cart pid qty true with
          | .error e => .error e
          | .ok (result, cart2) =>
              .ok ({ state with tool_result := some result }, cart2)
        else
          match update_cart_dyn cart pid qty with
          | .error e => .error e
          | .ok (result, cart2) =>
              .ok ({ state with tool_result := some result }, cart2)
  else if intent = "view_cart" then
    let result := view_cart cart
    let result := { result with
      catalog := some (.formatted formatted_catalog),
      exact_pricing := some exact_pricing_table,
      exact_occasions := some exact_occasions_table }
    .ok ({ state with tool_result := some result }, cart)
  else if intent = "checkout" then
    let customer := plan.customer.getD (.dict {})
    match checkout_dyn user_id cart customer with
    | .error e => .error e
    | .ok (result, cart2) =>
        .ok ({ state with tool_result := some result }, cart2)
  else if intent = "faq" then
    let question := plan.question.getD (.str (state.user_text.getD ""))
    match faq_answer_dyn question with
    | .error e => .error e
    | .ok answer =>
        let tr : ToolResult :=
          { rtype := some "faq_answer", answer := some answer,
            catalog := some (.formatted formatted_catalog),
            exact_pricing := some exact_pricing_table }
        .ok ({ state with tool_result := some tr }, cart)
  else
    let tr : ToolResult :=
      { rtype := some "smalltalk",
        catalog := some (.formatted formatted_catalog),
        exact_pricing := some exact_pricing_table,
        exact_occasions := some exact_occasions_table }
    .ok ({ state with tool_result := some tr }, cart)

/-- node_act (src/main.py lines 323-420): lowers the user text, re-checks
it for "remove" plus a literal catalog product-name mention (lines
339-346, overriding the intent to update_cart with qty 0 for the first
such product), and otherwise dispatches on the classified intent. -/
def node_act (cart : Cart) (state : AgentState) :
    Except String (AgentState × Cart) :=
  let intent := state.intent.getD "smalltalk"
  let plan := state.plan.getD {}
  let user_id := state.user_id.getD "guest"
  let user_text := strLower (state.user_text.getD "")
  if pyIn "remove" user_text then
    match CATALOG.find? (fun p => pyIn (strLower p.name) user_text) with
    | some p =>
        let (result, cart2) := update_cart cart p.id 0
        let state2 := { state with
          intent := some "update_cart", tool_result := some result }
        .ok (state2, cart2)
    | none => node_act_dispatch cart state intent plan user_id user_text
  else node_act_dispatch cart state intent plan user_id user_text

/-- Product resolution as the specification words it (section 4.2):
attempt, in order, (a) exact case-insensitive identifier match, (b) exact
case-insensitive name match, (c) bidirectional case-insensitive substring
match between input and name; the first match wins. -/
def resolve_spec (input : String) : Option Product :=
  match CATALOG.find? (fun p => strLower p.id == strLower input) with
  | some p => some p
  | none =>
      match CATALOG.find? (fun p => strLower p.name == strLower input) with
      | some p => some p
      | none =>
          CATALOG.find? fun p =>
            pyIn (strLower p.name) (strLower input) ||
            pyIn (strLower input) (strLower p.name)

/-- A one-line cart holding two units of p1, used as a concrete input. -/
def sampleCart : Cart :=
  [{ id := "p1", name := "Oud Royale", price := 4800, qty := 2 }]

/-- A fully populated customer block, used as a concrete input. -/
def sampleCustomer : Customer :=
  { name := some "Ali", address := some "Street 1 Lahore", phone := some "0300 1234567" }

/-- State whose text asks to delete a named product while the Planner
classified the message as view_cart. -/
def stDelete : AgentState :=
  { user_id := some "u1", user_text := some "delete Oud Royale please",
    intent := some "view_cart", plan := some {} }

/-- State with update_cart intent whose text contains both a set phrase
and the word remove next to a product name. -/
def stSetRemove : AgentState :=
  { user_id := some "u1", user_text := some "set 2, remove Oud Royale",
    intent := some "update_cart",
    plan := some { product_id := some (.str "p1"), qty := some (.int 2) } }

/-- State with update_cart intent whose text contains a set phrase and no
removal keyword, while the referenced product is not in the (empty) cart. -/
def stSetOnly : AgentState :=
  { user_id := some "u1", user_text := some "i just want 2 oud royale",
    intent := some "update_cart",
    plan := some { product_id := some (.str "oud"), qty := some (.int 2) } }

theorem isEmpty_eq_false_of_ne_nil {cart : Cart} (h : cart ≠ []) :
    cart.isEmpty = false := by
  cases cart with
  | nil => exact absurd rfl h
  | cons a as => rfl

/-- C1: checkout fails without touching the cart when the cart is empty or
a customer field is absent or empty; on a non-empty cart with all three
fields non-empty it succeeds, the order total is the sum of price*qty over
the cart lines, the payment method is Cash on Delivery, and the cart is
reset so that view_cart then shows an empty cart and zero total. -/
theorem checkout_contract (u : String) (cart : Cart) (cust : Customer) :
    (cart = [] →
      (checkout u cart cust).1.ok = some false ∧
      (checkout u cart cust).1.error.isSome = true ∧
      (checkout u cart cust).2 = cart) ∧
    (cart ≠ [] →
      (truthyOpt cust.name = false ∨ truthyOpt cust.address = false ∨
        truthyOpt cust.phone = false) →
      (checkout u cart cust).1.ok = some false ∧
      (checkout u cart cust).1.error.isSome = true ∧
      (checkout u cart cust).2 = cart) ∧
    (cart ≠ [] → truthyOpt cust.name = true → truthyOpt cust.address = true →
      truthyOpt cust.phone = true →
      (checkout u cart cust).1.ok = some true ∧
      ((checkout u cart cust).1.order.map Order.total) = some (cartTotal cart) ∧
      ((checkout u cart cust).1.order.map Order.payment) = some "Cash on Delivery" ∧
      (checkout u cart cust).2 = [] ∧
      view_cart (checkout u cart cust).2 =
        { ok := some true, cart := some [], total := some 0 }) := by
  refine ⟨?_, ?_, ?_⟩
  · intro h
    subst h
    exact ⟨rfl, rfl, rfl⟩
  · intro hne hmiss
    have hC : cart.isEmpty = false := isEmpty_eq_false_of_ne_nil hne
    rcases hmiss with h | h | h <;>
      simp [checkout, hC, h]
  · intro hne hn ha hp
    have hC : cart.isEmpty = false := isEmpty_eq_false_of_ne_nil hne
    simp [checkout, hC, hn, ha, hp, view_cart, cartTotal]

/-- Witness for checkout_contract at a concrete cart and customer. -/
theorem checkout_contract_witness :
    sampleCart ≠ [] ∧ truthyOpt sampleCustomer.name = true ∧
    truthyOpt sampleCustomer.address = true ∧
    truthyOpt sampleCustomer.phone = true ∧
    (checkout "u1" sampleCart sampleCustomer).1.ok = some true ∧
    (checkout "u1" sampleCart sampleCustomer).2 = [] := by
  have h := (checkout_contract "u1" sampleCart sampleCustomer).2.2
    (by decide) (by decide) (by decide) (by decide)
  exact ⟨by decide, by decide, by decide, by decide, h.1, h.2.2.2.1⟩

theorem updateFirst_append_of_not_mem (pred : CartItem → Bool)
    (f : CartItem → CartItem) (cart : Cart) (x : CartItem)
    (h : ∀ y ∈ cart, pred y = false) (hx : pred x = true) :
    updateFirst pred f (cart ++ [x]) = cart ++ [f x] := by
  induction cart with
  | nil => simp [updateFirst, hx]
  | cons a as ih =>
      have ha : pred a = false := h a (List.mem_cons_self a as)
      simp only [List.cons_append, updateFirst, ha, Bool.false_eq_true,
        if_false, List.cons.injEq, true_and]
      exact ih fun y hy => h y (List.mem_cons_of_mem a hy)

theorem filter_eq_nil_of_forall_ne {cart : Cart} {i : String}
    (h : ∀ y ∈ cart, y.id ≠ i) :
    cart.filter (fun item => item.id == i) = [] := by
  rw [List.filter_eq_nil_iff]
  intro a ha
  simp [h a ha]

theorem any_eq_false_of_forall_ne {cart : Cart} {i : String}
    (h : ∀ y ∈ cart, y.id ≠ i) :
    cart.any (fun item => item.id == i) = false := by
  rw [List.any_eq_false]
  intro a ha
  simp [h a ha]

/-- add_to_cart appends a fresh line when the resolved product has no line
in the cart yet. -/
theorem add_to_cart_new (cart : Cart) (r : String) (p : Product) (q : Int)
    (s : Bool) (hfind : find_product r = some p)
    (hnot : ∀ item ∈ cart, item.id ≠ p.id) :
    add_to_cart cart r q s =
      ({ ok := some true,
         cart := some (cart ++ [{ id := p.id, name := p.name, price := p.price, qty := q }]),
         added_product := some (productView p) },
       cart ++ [{ id := p.id, name := p.name, price := p.price, qty := q }]) := by
  have hany := any_eq_false_of_forall_ne hnot
  simp [add_to_cart, hfind, hany]

/-- C2: with the same resolvable product reference and a cart that has no
line for the resolved product, a first add followed by a second add
without set_quantity leaves exactly one line for that product whose
quantity is the sum of the two quantities, and a first add followed by a
second add with set_quantity leaves exactly one line whose quantity is the
second quantity; no duplicate line is created in either case. -/
theorem add_to_cart_merge_semantics (cart : Cart) (r : String) (p : Product)
    (q1 q2 : Int) (hfind : find_product r = some p)
    (hnot : ∀ item ∈ cart, item.id ≠ p.id) :
    ((add_to_cart (add_to_cart cart r q1 false).2 r q2 false).2.filter
        (fun item => item.id == p.id))
      = [{ id := p.id, name := p.name, price := p.price, qty := q1 + q2 }] ∧
    ((add_to_cart (add_to_cart cart r q1 false).2 r q2 true).2.filter
        (fun item => item.id == p.id))
      = [{ id := p.id, name := p.name, price := p.price, qty := q2 }] := by
  have h1 := add_to_cart_new cart r p q1 false hfind hnot
  set x : CartItem := { id := p.id, name := p.name, price := p.price, qty := q1 } with hxdef
  have hc1 : (add_to_cart cart r q1 false).2 = cart ++ [x] := by rw [h1]
  have hany : (cart ++ [x]).any (fun item => item.id == p.id) = true := by
    simp [List.any_append, hxdef]
  have hstep : ∀ s : Bool,
      (add_to_cart (cart ++ [x]) r q2 s).2 =
        cart ++ [{ x with qty := if s then q2 else x.qty + q2 }] := by
    intro s
    have hupd := updateFirst_append_of_not_mem (fun item => item.id == p.id)
      (fun item => { item with qty := if s then q2 else item.qty + q2 })
      cart x (fun y hy => by simp [hnot y hy]) (by simp [hxdef])
    simp only [add_to_cart, hfind, hany, if_true]
    exact hupd
  have hfilter : ∀ y : CartItem, y.id = p.id →
      (cart ++ [y]).filter (fun item => item.id == p.id) = [y] := by
    intro y hy
    rw [List.filter_append, filter_eq_nil_of_forall_ne hnot]
    simp [hy]
  constructor
  · rw [hc1, hstep false, hfilter _ rfl]
    simp [hxdef]
  · rw [hc1, hstep true, hfilter _ rfl]
    simp [hxdef]

/-- Witness for add_to_cart_merge_semantics: the reference "oud" resolves
to p1 and two adds of 2 then 3 leave a single line of quantity 5. -/
theorem add_to_cart_merge_witness :
    find_product "oud" = some oudRoyale ∧
    ((add_to_cart (add_to_cart [] "oud" 2 false).2 "oud" 3 false).2.filter
        (fun item => item.id == oudRoyale.id))
      = [{ id := oudRoyale.id, name := oudRoyale.name, price := oudRoyale.price, qty := 5 }] := by
  refine ⟨by decide, ?_⟩
  have h := add_to_cart_merge_semantics [] "oud" oudRoyale 2 3 (by decide)
    (by intro item hmem; simp at hmem)
  exact h.1

theorem mem_updateFirst {pred : CartItem → Bool} {f : CartItem → CartItem}
    {cart : Cart} {item : CartItem} (h : item ∈ updateFirst pred f cart) :
    item ∈ cart ∨ ∃ x, x ∈ cart ∧ item = f x := by
  induction cart with
  | nil => simp [updateFirst] at h
  | cons a as ih =>
      simp only [updateFirst] at h
      by_cases hp : pred a
      · rw [if_pos hp] at h
        rcases List.mem_cons.mp h with h | h
        · exact Or.inr ⟨a, List.mem_cons_self a as, h⟩
        · exact Or.inl (List.mem_cons_of_mem a h)
      · rw [if_neg hp] at h
        rcases List.mem_cons.mp h with h | h
        · exact Or.inl (h ▸ List.mem_cons_self a as)
        · rcases ih h with h | ⟨x, hx, he⟩
          · exact Or.inl (List.mem_cons_of_mem a h)
          · exact Or.inr ⟨x, List.mem_cons_of_mem a hx, he⟩

/-- C7 counterexample: a single add_to_cart call with quantity 0 stores a
line item whose quantity is 0, so the cart store does hold non-positive
quantities; add_to_cart does not treat zero or negative as removal. -/
theorem add_to_cart_stores_zero_qty :
    (add_to_cart [] "p1" 0 false).2
      = [{ id := "p1", name := "Oud Royale", price := 4800, qty := 0 }] ∧
    ¬ (∀ item ∈ (add_to_cart [] "p1" 0 false).2, 0 < item.qty) := by
  refine ⟨by decide, ?_⟩
  intro h
  have := h { id := "p1", name := "Oud Royale", price := 4800, qty := 0 } (by decide)
  simp at this

/-- C7 amended: line quantities stay positive provided every add_to_cart
call uses a positive quantity; update_cart preserves positivity for any
quantity argument because zero or negative there triggers removal, but
add_to_cart itself stores whatever quantity it is given. -/
theorem cart_positive_qty_preserved (cart : Cart) (r : String) (q : Int)
    (s : Bool) (hall : ∀ item ∈ cart, 0 < item.qty) :
    (0 < q → ∀ item ∈ (add_to_cart cart r q s).2, 0 < item.qty) ∧
    (∀ item ∈ (update_cart cart r q).2, 0 < item.qty) := by
  constructor
  · intro hq item hmem
    cases hfind : find_product r with
    | none =>
        rw [add_to_cart, hfind] at hmem
        exact hall item hmem
    | some p =>
        simp only [add_to_cart, hfind] at hmem
        by_cases hany : cart.any (fun it => it.id == p.id)
        · rw [if_pos hany] at hmem
          rcases mem_updateFirst hmem with h | ⟨x, hx, he⟩
          · exact hall item h
          · subst he
            by_cases hs : s = true <;>
              simp [hs, hq, add_pos (hall x hx) hq]
        · rw [if_neg hany] at hmem
          rcases List.mem_append.mp hmem with h | h
          · exact hall item h
          · rcases List.mem_singleton.mp h with rfl
            exact hq
  · intro item hmem
    by_cases hemp : cart.isEmpty
    · rw [update_cart, if_pos hemp] at hmem
      exact hall item hmem
    · rw [update_cart, if_neg hemp] at hmem
      cases hfind : find_product r with
      | none =>
          rw [hfind] at hmem
          exact hall item hmem
      | some p =>
          simp only [hfind] at hmem
          by_cases hany : cart.any (fun it => it.id == p.id)
          · rw [if_pos hany] at hmem
            by_cases hq : q ≤ 0
            · rw [if_pos hq] at hmem
              exact hall item (List.mem_of_mem_filter hmem)
            · rw [if_neg hq] at hmem
              rcases mem_updateFirst hmem with h | ⟨x, hx, he⟩
              · exact hall item h
              · subst he
                simpa using lt_of_not_le hq
          · rw [if_neg hany] at hmem
            exact hall item hmem

/-- Witness for cart_positive_qty_preserved on a concrete cart. -/
theorem cart_positive_qty_witness :
    (∀ item ∈ sampleCart, 0 < item.qty) ∧
    (∀ item ∈ (update_cart sampleCart "p1" (-3)).2, 0 < item.qty) := by
  have h := cart_positive_qty_preserved sampleCart "p1" (-3) false (by decide)
  exact ⟨by decide, h.2⟩

theorem mem_search_catalog (c : Criteria) (p : Product) :
    p ∈ search_catalog c ↔ p ∈ CATALOG ∧
      (∀ m, c.max_price = some m → p.price ≤ m) ∧
      (∀ g, c.gender = some g → g ≠ "" → p.gender = g) ∧
      (∀ o, c.occasion = some o → o ≠ "" → pyIn o p.occasion = true) ∧
      (∀ ns, c.notes = some ns → ns ≠ [] →
        ∃ n ∈ ns, (p.notes.map strLower).contains (strLower n) = true) := by
  obtain ⟨mp, g, o, ns⟩ := c
  simp only [search_catalog, List.mem_filter, Bool.and_eq_true]
  cases mp <;> cases g <;> cases o <;> cases ns <;>
    simp [List.any_eq_true, List.isEmpty_iff, or_iff_not_imp_left] <;>
    tauto

/-- C3 counterexample: the criteria dict with the falsy max_price 0 does
impose a constraint: it filters out the whole catalog instead of
returning it unchanged. -/
theorem search_catalog_falsy_max_price :
    search_catalog { max_price := some 0 } = [] ∧ CATALOG ≠ [] := by
  exact ⟨by decide, by decide⟩

/-- C3 amended: search_catalog returns a sublist of the catalog in catalog
order whose members are exactly the products meeting all supplied
constraints, where an absent key or a falsy gender, occasion or notes
value imposes no constraint, but a present max_price always imposes its
price bound, even when falsy; the empty criteria dict returns the full
catalog. -/
theorem search_catalog_characterization (c : Criteria) :
    List.Sublist (search_catalog c) CATALOG ∧
    (∀ p, p ∈ search_catalog c ↔ p ∈ CATALOG ∧
      (∀ m, c.max_price = some m → p.price ≤ m) ∧
      (∀ g, c.gender = some g → g ≠ "" → p.gender = g) ∧
      (∀ o, c.occasion = some o → o ≠ "" → pyIn o p.occasion = true) ∧
      (∀ ns, c.notes = some ns → ns ≠ [] →
        ∃ n ∈ ns, (p.notes.map strLower).contains (strLower n) = true)) ∧
    search_catalog {} = CATALOG :=
  ⟨List.filter_sublist CATALOG, fun p => mem_search_catalog c p, rfl⟩

/-- C8 counterexample: with notes criterion ["ou"], the product Oud Royale
has the note Oud which contains ou case-insensitively as a proper
substring, yet the search result is empty: substring matches do not
count for notes, only exact case-insensitive equality does. -/
theorem search_notes_substring_excluded :
    oudRoyale ∈ CATALOG ∧
    pyIn (strLower "ou") (strLower "Oud") = true ∧
    oudRoyale.notes.contains "Oud" = true ∧
    search_catalog { notes := some ["ou"] } = [] := by
  exact ⟨by decide, by decide, by decide, by decide⟩

/-- C8 amended: for a single-note criterion n, the returned products are
exactly the catalog products having a note whose lowercasing equals the
lowercasing of n; containment as a substring does not qualify. -/
theorem search_notes_exact_match (n : String) (p : Product) :
    p ∈ search_catalog { notes := some [n] } ↔
      p ∈ CATALOG ∧ strLower n ∈ p.notes.map strLower := by
  rw [mem_search_catalog]
  simp [List.elem_iff]

/-- C6 counterexample: update_cart on an unresolvable reference fails with
a product-not-found result that carries only the current cart: it has no
catalog field and no exact price table, unlike add_to_cart. -/
theorem update_cart_not_found_lacks_catalog :
    find_product "zzzq" = none ∧
    (update_cart sampleCart "zzzq" 1).1.ok = some false ∧
    (update_cart sampleCart "zzzq" 1).1.catalog = none ∧
    (update_cart sampleCart "zzzq" 1).1.exact_pricing = none ∧
    (update_cart sampleCart "zzzq" 1).1.cart = some sampleCart := by
  exact ⟨by decide, by decide, by decide, by decide, by decide⟩

/-- C6 amended: both operations resolve the product reference by the
three ordered case-insensitive passes the specification describes (id,
name, bidirectional substring; first catalog product wins); on no match,
add_to_cart fails with a product-not-found result carrying the full
catalog and the exact price table, while update_cart fails with a
product-not-found result carrying only the current cart. -/
theorem product_resolution_contract (r : String) (q : Int) (s : Bool)
    (cart : Cart) :
    find_product r = resolve_spec r ∧
    (find_product r = none →
      (add_to_cart cart r q s).1.ok = some false ∧
      (add_to_cart cart r q s).1.error.isSome = true ∧
      (add_to_cart cart r q s).1.catalog = some (.raw CATALOG) ∧
      (add_to_cart cart r q s).1.exact_pricing = some exact_pricing_table ∧
      (add_to_cart cart r q s).2 = cart) ∧
    (find_product r = none → cart ≠ [] →
      (update_cart cart r q).1.ok = some false ∧
      (update_cart cart r q).1.error.isSome = true ∧
      (update_cart cart r q).1.catalog = none ∧
      (update_cart cart r q).1.exact_pricing = none ∧
      (update_cart cart r q).1.cart = some cart ∧
      (update_cart cart r q).2 = cart) := by
  refine ⟨?_, ?_, ?_⟩
  · unfold find_product resolve_spec
    cases h1 : CATALOG.find? (fun p => strLower p.id == strLower r) with
    | some p => simp [h1]
    | none =>
        cases h2 : CATALOG.find? (fun p => strLower p.name == strLower r) with
        | some p => simp [h1, h2]
        | none => simp [h1, h2]
  · intro h
    simp [add_to_cart, h]
  · intro h hne
    have hC : cart.isEmpty = false := isEmpty_eq_false_of_ne_nil hne
    simp [update_cart, h, hC]

/-- Witness for product_resolution_contract at an unresolvable reference
and a non-empty cart. -/
theorem product_resolution_witness :
    find_product "zzzq" = none ∧ sampleCart ≠ [] ∧
    (add_to_cart sampleCart "zzzq" 1 false).1.catalog = some (.raw CATALOG) ∧
    (add_to_cart sampleCart "zzzq" 1 false).2 = sampleCart ∧
    (update_cart sampleCart "zzzq" 1).2 = sampleCart := by
  have h := product_resolution_contract "zzzq" 1 false sampleCart
  exact ⟨by decide, by decide, (h.2.1 (by decide)).2.2.1,
    (h.2.1 (by decide)).2.2.2.2, (h.2.2 (by decide) (by decide)).2.2.2.2.2⟩

/-- C5 counterexample: the text asks to delete Oud Royale (a literal
product-name mention) while the Planner said view_cart, yet node_act does
not override the intent to update_cart: the pre-dispatch override checks
only for the keyword remove, so the state keeps intent view_cart. -/
theorem node_act_delete_no_override :
    pyIn "delete" (strLower (stDelete.user_text.getD "")) = true ∧
    pyIn (strLower oudRoyale.name) (strLower (stDelete.user_text.getD "")) = true ∧
    (match node_act [] stDelete with
      | .ok (st2, _) => st2.intent
      | .error _ => none) = some "view_cart" := by
  exact ⟨by decide, by decide, rfl⟩

/-- C5 amended: only the keyword remove triggers the pre-dispatch
override: whenever the lowered user text contains remove and some catalog
product name occurs in it case-insensitively, node_act sets the intent to
update_cart and its tool result is the update_cart call with quantity 0
on the first such product, regardless of the Planner intent; delete and
take out alone do not trigger the override. -/
theorem node_act_remove_override (cart : Cart) (state : AgentState)
    (p : Product)
    (hrm : pyIn "remove" (strLower (state.user_text.getD "")) = true)
    (hfind : CATALOG.find? (fun q =>
      pyIn (strLower q.name) (strLower (state.user_text.getD ""))) = some p) :
    node_act cart state = .ok
      ({ state with
         intent := some "update_cart",
         tool_result := some (update_cart cart p.id 0).1 },
       (update_cart cart p.id 0).2) := by
  unfold node_act
  simp only [hrm, if_true, hfind]

/-- Witness for node_act_remove_override at a concrete removal message. -/
theorem node_act_remove_override_witness :
    pyIn "remove" (strLower "please remove Oud Royale") = true ∧
    node_act sampleCart
        { user_id := some "u1", user_text := some "please remove Oud Royale",
          intent := some "recommend", plan := some {} }
      = .ok ({ user_id := some "u1",
               user_text := some "please remove Oud Royale",
               intent := some "update_cart", plan := some {},
               tool_result := some (update_cart sampleCart "p1" 0).1 },
             (update_cart sampleCart "p1" 0).2) := by
  refine ⟨by decide, ?_⟩
  have h := node_act_remove_override sampleCart
    { user_id := some "u1", user_text := some "please remove Oud Royale",
      intent := some "recommend", plan := some {} }
    oudRoyale (by decide) (by decide)
  exact h

/-- C9 counterexample: a model response whose content is valid JSON but
not the expected structured object, such as the content 42, is returned
unchanged by llm_plan (no smalltalk default is substituted) and then
node_plan raises on plan.get: the Planner pipeline does raise for this
response. -/
theorem node_plan_raises_on_scalar_json :
    llm_plan_data (.scalar (.int 42)) = .scalar (.int 42) ∧
    node_plan {} (.scalar (.int 42))
      = .error "AttributeError: object has no attribute get" :=
  ⟨rfl, rfl⟩

/-- C9 amended: when json.loads raises on the model response content
(empty content included), llm_plan substitutes the default smalltalk
plan and node_plan sets the intent to smalltalk without raising; if in
addition the raw text does not trigger the removal override, node_act
dispatches the default branch and returns a smalltalk-type result. -/
theorem planner_parse_failure_defaults (state : AgentState) (cart : Cart)
    (hrm : pyIn "remove" (strLower (state.user_text.getD "")) = false) :
    llm_plan_data .failure = .dict { intent := some "smalltalk" } ∧
    node_plan state .failure = .ok
      { state with
        plan := some { intent := some "smalltalk" },
        intent := some "smalltalk" } ∧
    ∃ st3 cart2,
      node_act cart
          { state with
            plan := some { intent := some "smalltalk" },
            intent := some "smalltalk" }
        = .ok (st3, cart2) ∧
      st3.tool_result.map ToolResult.rtype = some (some "smalltalk") := by
  refine ⟨rfl, rfl, ?_⟩
  unfold node_act
  dsimp only
  simp only [hrm, Bool.false_eq_true, if_false]
  unfold node_act_dispatch
  simp only [reduceIte]
  exact ⟨_, _, rfl, rfl⟩

/-- Witness for planner_parse_failure_defaults at the empty state. -/
theorem planner_parse_failure_witness :
    pyIn "remove" (strLower (AgentState.user_text {} |>.getD "")) = false ∧
    ∃ st3 cart2,
      node_act []
          { plan := some { intent := some "smalltalk" },
            intent := some "smalltalk" }
        = .ok (st3, cart2) ∧
      st3.tool_result.map ToolResult.rtype = some (some "smalltalk") := by
  have h := planner_parse_failure_defaults {} [] (by decide)
  exact ⟨by decide, h.2.2⟩

/-- C10 counterexample: the Planner intent is update_cart, the text
contains the word set, the plan product p1 resolves and the cart is
empty, yet node_act does not route to add_to_cart with set_quantity:
because the text also mentions remove with a product name, the override
fires first and the request fails with a Cart is empty error. -/
theorem update_intent_set_with_remove_fails :
    stSetRemove.intent = some "update_cart" ∧
    pyIn "set" (strLower (stSetRemove.user_text.getD "")) = true ∧
    find_product "p1" = some oudRoyale ∧
    node_act [] stSetRemove = .ok
      ({ stSetRemove with
         intent := some "update_cart",
         tool_result := some { ok := some false, error := some "Cart is empty." } },
       []) := by
  exact ⟨rfl, by decide, by decide, rfl⟩

/-- C10 amended: when the Planner intent is update_cart, the lowered text
contains set, only want or just want and none of the removal keywords
remove, delete, take out, node_act routes the request to add_to_cart
with set_quantity true; so for a plan product reference resolving to a
product with no line in the cart (an empty cart included), the
operation succeeds and appends a new line with the plan quantity
instead of failing like update_cart would. -/
theorem update_intent_set_routes_add (cart : Cart) (state : AgentState)
    (p : Product) (r : String) (q : Int)
    (hintent : state.intent = some "update_cart")
    (hpid : (state.plan.getD {}).product_id = some (.str r))
    (hqty : (state.plan.getD {}).qty = some (.int q))
    (hrm : pyIn "remove" (strLower (state.user_text.getD "")) = false)
    (hdel : pyIn "delete" (strLower (state.user_text.getD "")) = false)
    (htak : pyIn "take out" (strLower (state.user_text.getD "")) = false)
    (hset : (pyIn "set" (strLower (state.user_text.getD "")) ||
             pyIn "only want" (strLower (state.user_text.getD "")) ||
             pyIn "just want" (strLower (state.user_text.getD ""))) = true)
    (hfind : find_product r = some p)
    (hnot : ∀ item ∈ cart, item.id ≠ p.id) :
    node_act cart state = .ok
      ({ state with tool_result := some (add_to_cart cart r q true).1 },
       cart ++ [{ id := p.id, name := p.name, price := p.price, qty := q }]) ∧
    (add_to_cart cart r q true).1.ok = some true ∧
    (add_to_cart cart r q true).2
      = cart ++ [{ id := p.id, name := p.name, price := p.price, qty := q }] := by
  have hnew := add_to_cart_new cart r p q true hfind hnot
  refine ⟨?_, by rw [hnew], by rw [hnew]⟩
  unfold node_act
  dsimp only
  simp only [hrm, Bool.false_eq_true, if_false]
  unfold node_act_dispatch
  simp only [hintent, Option.getD_some, hpid, hqty, reduceIte, pyInt,
    add_to_cart_dyn, pyStr]
  simp only [hrm, hdel, htak, hset, Bool.or_self, Bool.false_or,
    Bool.false_eq_true, if_false, if_true]
  rw [hnew]
  rw [if_neg (by decide), if_neg (by decide)]

/-- Witness for update_intent_set_routes_add at a concrete message. -/
theorem update_intent_set_witness :
    stSetOnly.intent = some "update_cart" ∧
    pyIn "just want" (strLower (stSetOnly.user_text.getD "")) = true ∧
    find_product "oud" = some oudRoyale ∧
    (add_to_cart [] "oud" 2 true).1.ok = some true ∧
    (add_to_cart [] "oud" 2 true).2
      = [{ id := oudRoyale.id, name := oudRoyale.name,
           price := oudRoyale.price, qty := 2 }] := by
  have h := update_intent_set_routes_add [] stSetOnly oudRoyale "oud" 2
    rfl rfl rfl (by decide) (by decide) (by decide) (by decide) (by decide)
    (by intro item hmem; simp at hmem)
  exact ⟨rfl, by decide, by decide, h.2.1, h.2.2⟩

end WAagent
